import Mathlib

/-!
Verification of the SPI-CAN driver (src/can.c, src/can.h).

Shallow embedding of the MCP2518FD SPI driver. Machine integers are
modelled as Nat with explicit truncation (u8/u16/u32). The external SPI
exchange (spi_write_read_blocking via spi_write_to_MCP) is modelled by an
environment that yields, for the k-th exchange of a run, the status value
returned by the exchange and the received bytes. Each driver operation
threads an explicit state holding the exchange counter and an event trace.
-/

namespace CanDriver

/-! ## C integer truncation -/

/-- Truncation to uint8_t. -/
def u8 (x : Nat) : Nat := x % 256

/-- Truncation to uint16_t. -/
def u16 (x : Nat) : Nat := x % 65536

/-- Truncation to uint32_t. -/
def u32 (x : Nat) : Nat := x % 4294967296

/-! ## Constants from src/can.h -/

def MCP2518FD_INSTR_RESET : Nat := 0x00
def MCP2518FD_INSTR_READ : Nat := 0x03
def MCP2518FD_INSTR_WRITE : Nat := 0x02
def MCP2518FD_REG_CiCON : Nat := 0x000
def MCP2518FD_REG_OSC : Nat := 0xE00
def MCP2518FD_REG_DEVID : Nat := 0xE14

/-- Modelled from the spec: the CAN_OPERATION_MODE enum referenced by
can.c line 88 is absent from src/ (can.h declares no such enum); the
spec names Configuration mode as the mode requested during init, whose
datasheet encoding in the 3-bit OpMode field is 4. No claim verdict
depends on this numeric value. -/
def CAN_CONFIGURATION_MODE : Nat := 4

/-! ## Bit-field access (can.h SECTION 4 unions, made explicit) -/

/-- Extract the field of the given bit offset and width from a 32-bit word. -/
def getField (w off width : Nat) : Nat := (w >>> off) &&& ((1 <<< width) - 1)

/-- Overwrite the field of the given bit offset and width in a 32-bit word,
leaving every other bit as read. -/
def setField (w off width v : Nat) : Nat :=
  (w &&& (0xFFFFFFFF ^^^ (((1 <<< width) - 1) <<< off))) |||
    ((v &&& ((1 <<< width) - 1)) <<< off)

/-- CiCON.OpMode, bits 23:21 (can.h line 191). -/
def OpMode (w : Nat) : Nat := getField w 21 3

/-- CiCON with RequestOpMode (bits 26:24, can.h line 192) set to m. -/
def setRequestOpMode (w m : Nat) : Nat := setField w 24 3 m

/-- OSC.OscReady, bit 10 (can.h line 555). -/
def OscReady (w : Nat) : Nat := getField w 10 1

/-- DEVID.DEV, bits 7:4 (can.h line 643). -/
def DEV (w : Nat) : Nat := getField w 4 4

/-- Modelled from the spec: can.c line 244 reads CiCON_reg.bF.isBusy but
the REG_CiCON union in src/can.h declares no isBusy member; the spec lists
isBusy as a read-only CiCON field without a bit position. Modelled at
bit 11 (an unimplemented bit of the given layout). No claim verdict
depends on the position. -/
def isBusy (w : Nat) : Nat := getField w 11 1

/-! ## SPI environment, events and driver state -/

/-- Outcome of one call of the external exchange
spi_write_read_blocking: the status value it returns (the source stores
it through int8_t and uint8_t and only ever tests it against 0) and the
bytes captured into rxbuffer. -/
structure SpiResp where
  status : Nat
  rx : List Nat
deriving DecidableEq

/-- The SPI environment: the response of the k-th exchange of a run. -/
structure SpiEnv where
  resp : Nat → SpiResp

/-- Observable events of a run, at the granularity of the driver calls:
one event per SPI transaction plus the sleeps. -/
inductive Ev where
  | reset : Ev
  | regRead (addr : Nat) (tx : List Nat) (data : Nat) : Ev
  | regWrite (addr : Nat) (tx : List Nat) : Ev
  | sleepUs (n : Nat) : Ev
  | sleepMs (n : Nat) : Ev
deriving DecidableEq

/-- Driver state: the exchange counter and the event trace so far. -/
structure DrvState where
  k : Nat
  trace : List Ev
deriving DecidableEq

/-- The state at the start of a run. -/
def st0 : DrvState := ⟨0, []⟩

def sleep_us_ev (n : Nat) (s : DrvState) : DrvState := ⟨s.k, s.trace ++ [Ev.sleepUs n]⟩

def sleep_ms_ev (n : Nat) (s : DrvState) : DrvState := ⟨s.k, s.trace ++ [Ev.sleepMs n]⟩

/-! ## Framing layer (can.c lines 34-86) -/

/-- TX frame built by SPI_read_word_from_MCP, can.c lines 35-39:
txbuffer[0] = (MCP2518FD_INSTR_READ << 4) | (addr >> 8) & 0x0F;
txbuffer[1] = (addr << 8) & 0xFF; the remaining four bytes stay zero.
The uint16_t argument is promoted to int, so the left shift in byte 1
leaves the low eight bits zero. -/
def SPI_read_txframe (addr : Nat) : List Nat :=
  [ u8 ((MCP2518FD_INSTR_READ <<< 4) ||| ((u16 addr >>> 8) &&& 0x0F)),
    u8 ((u16 addr <<< 8) &&& 0xFF),
    0, 0, 0, 0 ]

/-- TX frame built by SPI_write_word_to_MCP, can.c lines 51-59. -/
def SPI_write_txframe (addr data : Nat) : List Nat :=
  [ u8 ((MCP2518FD_INSTR_WRITE <<< 4) ||| ((u16 addr >>> 8) &&& 0x0F)),
    u8 ((u16 addr <<< 8) &&& 0xFF),
    (u32 data >>> 0) &&& 0xFF,
    (u32 data >>> 8) &&& 0xFF,
    (u32 data >>> 16) &&& 0xFF,
    (u32 data >>> 24) &&& 0xFF ]

/-- The frame the spec claims for write_reg (spec.md Property 1),
written from the words of the spec for comparison with the source. -/
def spec_write_frame (a v : Nat) : List Nat :=
  [ 0x20 ||| (a >>> 8), a &&& 0xFF,
    v &&& 0xFF, (v >>> 8) &&& 0xFF, (v >>> 16) &&& 0xFF, (v >>> 24) &&& 0xFF ]

/-- The frame the spec claims for read_reg (spec.md section 4.2),
written from the words of the spec for comparison with the source. -/
def spec_read_frame (a : Nat) : List Nat :=
  [ (0x3 <<< 4) ||| ((a >>> 8) &&& 0x0F), a &&& 0xFF, 0, 0, 0, 0 ]

/-- Byte i of the receive buffer (uint8_t, missing bytes read as the
zero initializer of rxbuffer). -/
def rxByte (r : SpiResp) (i : Nat) : Nat := u8 (r.rx.getD i 0)

/-- Word reassembly of can.c line 43:
rxbuffer[2] | (rxbuffer[3] << 8) | (rxbuffer[4] << 16) | (rxbuffer[5] << 24). -/
def assembleWord (r : SpiResp) : Nat :=
  rxByte r 2 ||| (rxByte r 3 <<< 8) ||| (rxByte r 4 <<< 16) ||| (rxByte r 5 <<< 24)

/-- can.c lines 34-47: build the frame, exchange 6 bytes, assemble the
word into *data unconditionally, return the exchange status (as stored
through uint8_t error). Result: (error, *data, state). -/
def SPI_read_word_from_MCP (env : SpiEnv) (addr : Nat) (s : DrvState) :
    Nat × Nat × DrvState :=
  (u8 (env.resp s.k).status,
   assembleWord (env.resp s.k),
   ⟨s.k + 1,
    s.trace ++ [Ev.regRead addr (SPI_read_txframe addr) (assembleWord (env.resp s.k))]⟩)

/-- can.c lines 49-64: build the frame, exchange 6 bytes, return the
exchange status. -/
def SPI_write_word_to_MCP (env : SpiEnv) (addr data : Nat) (s : DrvState) :
    Nat × DrvState :=
  (u8 (env.resp s.k).status,
   ⟨s.k + 1, s.trace ++ [Ev.regWrite addr (SPI_write_txframe addr data)]⟩)

/-- can.c lines 76-86: transmit the 2-byte reset frame, return the
exchange status. -/
def spi_reset_MCP_chip (env : SpiEnv) (s : DrvState) : Nat × DrvState :=
  (u8 (env.resp s.k).status, ⟨s.k + 1, s.trace ++ [Ev.reset]⟩)

/-! ## The common poll loop

can.c lines 107-123 (set_mode), 141-159 (oscillator_config) and
245-257 (CAN_controller_config) all contain the same loop

  while(timeout--) { read; if(!error) return -1; if(ready) break; sleep_us(100); }
  if(!timeout) return -2;

C semantics of the condition: timeout-- yields the old value and then
decrements. When the loop exits with the condition false the unsigned
counter wraps from 0 to its maximum (65535 for uint16_t, 255 for
uint8_t), so the following if(!timeout) test is FALSE on exhaustion;
the exhausted constructor marks that exit. On break the counter holds
the decremented value, which is 0 exactly when the break happened on
the final iteration of the budget. -/

inductive LoopExit where
  | ioFail : LoopExit
  | brk (timeout : Nat) : LoopExit
  | exhausted : LoopExit
deriving DecidableEq

/-- The poll loop, by fuel. w is the current content of the register
union variable; rdy is the break condition applied to the word read. -/
def pollReg (env : SpiEnv) (addr : Nat) (rdy : Nat → Bool) :
    Nat → Nat → DrvState → LoopExit × Nat × DrvState
  | 0, w, s => (LoopExit.exhausted, w, s)
  | t + 1, _, s =>
    match SPI_read_word_from_MCP env addr s with
    | (error, data, s1) =>
      if error = 0 then (LoopExit.ioFail, data, s1)
      else if rdy data then (LoopExit.brk t, data, s1)
      else pollReg env addr rdy t data (sleep_us_ev 100 s1)

/-! ## Orchestrator operations (can.c lines 88-347) -/

/-- The return-code mapping shared by the poll sites: inside the loop a
zero exchange status returns -1; after the loop, if(!timeout) returns
-2, which fires exactly when the loop broke on its final iteration
(counter decremented to 0), and the wrapped counter of the exhausted
exit falls through to return 0. -/
def afterPoll : LoopExit → Int
  | LoopExit.ioFail => -1
  | LoopExit.brk t => if t = 0 then -2 else 0
  | LoopExit.exhausted => 0

/-- The poll of can.c lines 107-123: the CiCON union variable holds the
word read on line 92 with RequestOpMode overwritten (line 103), and the
loop starts after the write of line 105. Components of the
SPI_read_word_from_MCP result stand for the variables error, word and
the successor state. -/
def modePollOf (env : SpiEnv) (mode : Nat) (s : DrvState) :
    LoopExit × Nat × DrvState :=
  pollReg env MCP2518FD_REG_CiCON (fun d => OpMode d == mode) 10000
    (setRequestOpMode (SPI_read_word_from_MCP env MCP2518FD_REG_CiCON s).2.1 mode)
    (SPI_write_word_to_MCP env MCP2518FD_REG_CiCON
      (setRequestOpMode (SPI_read_word_from_MCP env MCP2518FD_REG_CiCON s).2.1 mode)
      (SPI_read_word_from_MCP env MCP2518FD_REG_CiCON s).2.2).2

/-- can.c lines 88-132 (MCP2518fd_set_mode). Note the source tests
if(!error) after the CiCON read, so exchange status 0 is the failure
path; the status of the mode-request write on line 105 is overwritten
without being tested. -/
def MCP2518fd_set_mode (env : SpiEnv) (mode : Nat) (s : DrvState) :
    Int × DrvState :=
  if (SPI_read_word_from_MCP env MCP2518FD_REG_CiCON s).1 = 0 then
    (-1, (SPI_read_word_from_MCP env MCP2518FD_REG_CiCON s).2.2)
  else if OpMode (SPI_read_word_from_MCP env MCP2518FD_REG_CiCON s).2.1 = mode then
    (0, (SPI_read_word_from_MCP env MCP2518FD_REG_CiCON s).2.2)
  else (afterPoll (modePollOf env mode s).1, (modePollOf env mode s).2.2)

/-- can.c lines 134-218 (MCP2518fd_oscillator_config). Control always
returns by line 166; lines 168-217 (the OSC write and the SclkReady
poll) are unreachable. The initial 0 passed for the register variable
mirrors the uninitialized union and is only returned if the fuel is 0,
which it is not. -/
def MCP2518fd_oscillator_config (env : SpiEnv) (s : DrvState) :
    Int × DrvState :=
  match pollReg env MCP2518FD_REG_OSC (fun d => OscReady d != 0) 10000 0
      (sleep_ms_ev 2 s) with
  | (LoopExit.ioFail, _, s1) => (-1, s1)
  | (LoopExit.brk t, _, s1) => if t = 0 then (-2, s1) else (0, s1)
  | (LoopExit.exhausted, _, s1) => (0, s1)

/-- can.c lines 220-234 (MCP2518fd_devid_verify): status 0 yields -2,
DEV other than 0x01 yields -1, else 0. -/
def MCP2518fd_devid_verify (env : SpiEnv) (s : DrvState) : Int × DrvState :=
  if (SPI_read_word_from_MCP env MCP2518FD_REG_DEVID s).1 = 0 then
    (-2, (SPI_read_word_from_MCP env MCP2518FD_REG_DEVID s).2.2)
  else if DEV (SPI_read_word_from_MCP env MCP2518FD_REG_DEVID s).2.1 ≠ 1 then
    (-1, (SPI_read_word_from_MCP env MCP2518FD_REG_DEVID s).2.2)
  else (0, (SPI_read_word_from_MCP env MCP2518FD_REG_DEVID s).2.2)

/-- can.c lines 268-279: the canonical CiCON field assignments, in
source order. -/
def ciconConfigure (w : Nat) : Nat :=
  let w1 := setField w 0 5 0x0
  let w2 := setField w1 5 1 1
  let w3 := setField w2 6 1 0
  let w4 := setField w3 8 1 0
  let w5 := setField w4 9 2 0
  let w6 := setField w5 12 1 0
  let w7 := setField w6 16 1 0
  let w8 := setField w7 17 1 0
  let w9 := setField w8 18 1 0
  let w10 := setField w9 19 1 0
  let w11 := setField w10 20 1 1
  setField w11 28 4 0x0

/-- can.c lines 281-288: write the configured CiCON word; status 0 on
the write yields -1, else success. -/
def controller_config_write (env : SpiEnv) (w : Nat) (s : DrvState) :
    Int × DrvState :=
  match SPI_write_word_to_MCP env MCP2518FD_REG_CiCON (ciconConfigure w) s with
  | (werr, s1) => if werr = 0 then (-1, s1) else (0, s1)

/-- can.c lines 236-291 (MCP2518fd_CAN_controller_config). Note line
245 declares uint8_t timeout = 10000, which truncates the busy-wait
budget to u8 10000 = 16 iterations. -/
def MCP2518fd_CAN_controller_config (env : SpiEnv) (s : DrvState) :
    Int × DrvState :=
  match SPI_read_word_from_MCP env MCP2518FD_REG_CiCON s with
  | (error, w, s1) =>
    if error = 0 then (-1, s1)
    else if isBusy w = 1 then
      match pollReg env MCP2518FD_REG_CiCON (fun d => isBusy d == 0) (u8 10000) w s1 with
      | (LoopExit.ioFail, _, s2) => (-1, s2)
      | (LoopExit.brk t, w2, s2) =>
        if t = 0 then (-2, s2) else controller_config_write env w2 s2
      | (LoopExit.exhausted, w2, s2) => controller_config_write env w2 s2
    else controller_config_write env w s1

/-- can.c line 328-330: the reset (status ignored) followed by the
2 ms sleep. -/
def init_afterReset (env : SpiEnv) (s : DrvState) : DrvState :=
  sleep_ms_ev 2 (spi_reset_MCP_chip env s).2

/-- can.c line 332: the configuration-mode request issued by init. -/
def init_mode (env : SpiEnv) (s : DrvState) : Int × DrvState :=
  MCP2518fd_set_mode env CAN_CONFIGURATION_MODE (init_afterReset env s)

/-- can.c line 336: the oscillator step of init. -/
def init_osc (env : SpiEnv) (s : DrvState) : Int × DrvState :=
  MCP2518fd_oscillator_config env (init_mode env s).2

/-- can.c line 340: the identity check of init. -/
def init_devid (env : SpiEnv) (s : DrvState) : Int × DrvState :=
  MCP2518fd_devid_verify env (init_osc env s).2

/-- can.c lines 327-347 (MCP2518fd_init). The source tests
set_mode != 0 but !oscillator_config and !devid_verify, so init aborts
with -2 when oscillator_config SUCCEEDS and with -3 when devid_verify
SUCCEEDS; when devid_verify returns nonzero control falls off the end
of the non-void function, modelled as none. -/
def MCP2518fd_init (env : SpiEnv) (s : DrvState) : Option Int × DrvState :=
  if (init_mode env s).1 ≠ 0 then (some (-1), (init_mode env s).2)
  else if (init_osc env s).1 = 0 then (some (-2), (init_osc env s).2)
  else if (init_devid env s).1 = 0 then (some (-3), (init_devid env s).2)
  else (none, (init_devid env s).2)

/-! ## Trace observations -/

def isRead : Ev → Bool
  | Ev.regRead _ _ _ => true
  | _ => false

def isWrite : Ev → Bool
  | Ev.regWrite _ _ => true
  | _ => false

/-- The register address an event touches, if any. -/
def evReg : Ev → Option Nat
  | Ev.regRead a _ _ => some a
  | Ev.regWrite a _ => some a
  | _ => none

def readCount (t : List Ev) : Nat := t.countP isRead

def writeCount (t : List Ev) : Nat := t.countP isWrite

/-! ## Concrete SPI environments used as witnesses and counterexamples -/

/-- Every exchange reports status 0 with an all-zero receive buffer. -/
def respZ (_ : Nat) : SpiResp := ⟨0, [0, 0, 0, 0, 0, 0]⟩

def envZ : SpiEnv := ⟨respZ⟩

/-- Every exchange reports status 6 (six bytes transferred) with an
all-zero receive buffer, so every polled register reads as 0. -/
def resp6z (_ : Nat) : SpiResp := ⟨6, [0, 0, 0, 0, 0, 0]⟩

def env6z : SpiEnv := ⟨resp6z⟩

/-- All exchanges report status 6; the exchange of index 10001 (the
final iteration of the set_mode poll when the run starts at index 0)
returns a CiCON word with OpMode = 4, every other one returns 0. -/
def resp1w (k : Nat) : SpiResp :=
  if k = 10001 then ⟨6, [0, 0, 0, 0, 0x80, 0]⟩ else ⟨6, [0, 0, 0, 0, 0, 0]⟩

def env1w : SpiEnv := ⟨resp1w⟩

/-- All exchanges report status 6; the exchange of index 9999 (the
final iteration of the oscillator poll when the run starts at index 0)
returns an OSC word with OscReady = 1, every other one returns 0. -/
def resp2w (k : Nat) : SpiResp :=
  if k = 9999 then ⟨6, [0, 0, 0, 4, 0, 0]⟩ else ⟨6, [0, 0, 0, 0, 0, 0]⟩

def env2w : SpiEnv := ⟨resp2w⟩

/-- A short successful bring-up: exchange 1 reads CiCON = 0 (OpMode 0),
exchange 3 reads CiCON with OpMode = 4 (the mode poll succeeds at once),
exchange 4 reads OSC with OscReady = 1; all statuses are 6. -/
def resp7 (k : Nat) : SpiResp :=
  if k = 3 then ⟨6, [0, 0, 0, 0, 0x80, 0]⟩
  else if k = 4 then ⟨6, [0, 0, 0, 4, 0, 0]⟩
  else ⟨6, [0, 0, 0, 0, 0, 0]⟩

def env7 : SpiEnv := ⟨resp7⟩

/-- The state right after one read transaction at address a. -/
def afterRead (env : SpiEnv) (a : Nat) (s : DrvState) : DrvState :=
  ⟨s.k + 1, s.trace ++ [Ev.regRead a (SPI_read_txframe a) (assembleWord (env.resp s.k))]⟩

/-- The state right after one write transaction at address a. -/
def afterWrite (env : SpiEnv) (a d : Nat) (s : DrvState) : DrvState :=
  ⟨s.k + 1, s.trace ++ [Ev.regWrite a (SPI_write_txframe a d)]⟩

/-! ## Unfolding lemmas for the transport operations -/

theorem SPI_read_error (env : SpiEnv) (a : Nat) (s : DrvState) :
    (SPI_read_word_from_MCP env a s).1 = u8 (env.resp s.k).status := rfl

theorem SPI_read_data (env : SpiEnv) (a : Nat) (s : DrvState) :
    (SPI_read_word_from_MCP env a s).2.1 = assembleWord (env.resp s.k) := rfl

theorem SPI_read_state (env : SpiEnv) (a : Nat) (s : DrvState) :
    (SPI_read_word_from_MCP env a s).2.2 = afterRead env a s := rfl

theorem SPI_write_state (env : SpiEnv) (a d : Nat) (s : DrvState) :
    (SPI_write_word_to_MCP env a d s).2 = afterWrite env a d s := rfl

theorem modePollOf_eq (env : SpiEnv) (mode : Nat) (s : DrvState) :
    modePollOf env mode s
      = pollReg env MCP2518FD_REG_CiCON (fun d => OpMode d == mode) 10000
          (setRequestOpMode (assembleWord (env.resp s.k)) mode)
          (afterWrite env MCP2518FD_REG_CiCON
            (setRequestOpMode (assembleWord (env.resp s.k)) mode)
            (afterRead env MCP2518FD_REG_CiCON s)) := rfl

/-! ## Poll-loop lemmas -/

/-- One-step unfolding of the poll loop at positive fuel. -/
theorem pollReg_succ_eq (env : SpiEnv) (a : Nat) (r : Nat → Bool)
    (t w : Nat) (s : DrvState) :
    pollReg env a r (t + 1) w s =
      if u8 (env.resp s.k).status = 0 then
        (LoopExit.ioFail, assembleWord (env.resp s.k), afterRead env a s)
      else if r (assembleWord (env.resp s.k)) then
        (LoopExit.brk t, assembleWord (env.resp s.k), afterRead env a s)
      else pollReg env a r t (assembleWord (env.resp s.k))
        (sleep_us_ev 100 (afterRead env a s)) := rfl

/-- The poll loop only appends events: at most fuel-many register
reads, no register writes, and every event either touches the polled
address or is a sleep. -/
theorem pollReg_trace_spec (env : SpiEnv) (a : Nat) (r : Nat → Bool) :
    ∀ t w s, ∃ d, (pollReg env a r t w s).2.2.trace = s.trace ++ d
      ∧ d.countP isRead ≤ t
      ∧ d.countP isWrite = 0
      ∧ ∀ e ∈ d, evReg e = some a ∨ evReg e = none := by
  intro t
  induction t with
  | zero =>
    intro w s
    exact ⟨[], by simp [pollReg], by simp, by simp, by simp⟩
  | succ n ih =>
    intro w s
    rw [pollReg_succ_eq]
    split
    · exact ⟨[Ev.regRead a (SPI_read_txframe a) (assembleWord (env.resp s.k))],
        by simp [afterRead], by simp [List.countP_cons, isRead],
        by simp [List.countP_cons, isWrite], by simp [evReg]⟩
    · split
      · exact ⟨[Ev.regRead a (SPI_read_txframe a) (assembleWord (env.resp s.k))],
          by simp [afterRead], by simp [List.countP_cons, isRead],
          by simp [List.countP_cons, isWrite], by simp [evReg]⟩
      · obtain ⟨d, hd, hr, hw, hm⟩ := ih (assembleWord (env.resp s.k))
          (sleep_us_ev 100 (afterRead env a s))
        refine ⟨Ev.regRead a (SPI_read_txframe a) (assembleWord (env.resp s.k))
          :: Ev.sleepUs 100 :: d, ?_, ?_, ?_, ?_⟩
        · rw [hd]
          simp [sleep_us_ev, afterRead]
        · simp [List.countP_cons, isRead]
          omega
        · simpa [List.countP_cons, isWrite] using hw
        · intro e he
          simp only [List.mem_cons] at he
          rcases he with he | he | he
          · simp [he, evReg]
          · simp [he, evReg]
          · exact hm e he

/-- If every exchange reports a nonzero status and the ready condition
never holds on a read word, the poll loop runs its whole budget and
exits through the exhausted path (the wrapped counter). -/
theorem pollReg_exhausted_of (env : SpiEnv) (a : Nat) (r : Nat → Bool)
    (hok : ∀ k, u8 (env.resp k).status ≠ 0)
    (hnr : ∀ k, r (assembleWord (env.resp k)) = false) :
    ∀ t w s, (pollReg env a r t w s).1 = LoopExit.exhausted := by
  intro t
  induction t with
  | zero => intro w s; rfl
  | succ n ih =>
    intro w s
    rw [pollReg_succ_eq, if_neg (hok s.k), hnr s.k, if_neg Bool.false_ne_true]
    exact ih _ _

/-- If every exchange reports a nonzero status the poll loop never
exits through the transport-failure path. -/
theorem pollReg_ne_ioFail (env : SpiEnv) (a : Nat) (r : Nat → Bool)
    (hok : ∀ k, u8 (env.resp k).status ≠ 0) :
    ∀ t w s, (pollReg env a r t w s).1 ≠ LoopExit.ioFail := by
  intro t
  induction t with
  | zero => intro w s; simp [pollReg]
  | succ n ih =>
    intro w s
    rw [pollReg_succ_eq, if_neg (hok s.k)]
    split
    · simp
    · exact ih _ _

/-- If the ready condition first holds exactly on the final iteration
of the budget, the loop breaks with the counter already decremented to
0, so the if(!timeout) test after the loop fires. -/
theorem pollReg_brk_last (env : SpiEnv) (a : Nat) (r : Nat → Bool)
    (hok : ∀ k, u8 (env.resp k).status ≠ 0) :
    ∀ n w s, (∀ j, j < n → r (assembleWord (env.resp (s.k + j))) = false) →
      r (assembleWord (env.resp (s.k + n))) = true →
      (pollReg env a r (n + 1) w s).1 = LoopExit.brk 0 := by
  intro n
  induction n with
  | zero =>
    intro w s _ hhit
    simp only [Nat.add_zero] at hhit
    rw [pollReg_succ_eq, if_neg (hok s.k), hhit, if_pos rfl]
  | succ m ih =>
    intro w s hmiss hhit
    have h0 : r (assembleWord (env.resp s.k)) = false := by
      have := hmiss 0 (Nat.succ_pos m)
      simpa using this
    rw [pollReg_succ_eq, if_neg (hok s.k), h0, if_neg Bool.false_ne_true]
    exact ih (assembleWord (env.resp s.k)) (sleep_us_ev 100 (afterRead env a s))
      (fun j hj => by
        have e : (sleep_us_ev 100 (afterRead env a s)).k + j = s.k + (j + 1) := by
          simp [sleep_us_ev, afterRead]
          omega
        rw [e]
        exact hmiss (j + 1) (by omega))
      (by
        have e : (sleep_us_ev 100 (afterRead env a s)).k + m = s.k + (m + 1) := by
          simp [sleep_us_ev, afterRead]
          omega
        rw [e]
        exact hhit)

/-! ## Claim C1 -/

/-- C1: the claim says a register write at address a emits byte 1 =
a AND 0xFF. At address 0x001 the source emits byte 1 = 0, because
can.c line 55 computes (addr << 8) & 0xFF, which is 0 for every
address; the frame therefore differs from the claimed one. -/
theorem C1_write_frame_diverges :
    SPI_write_txframe 0x001 0 = [0x20, 0x00, 0, 0, 0, 0]
    ∧ spec_write_frame 0x001 0 = [0x20, 0x01, 0, 0, 0, 0]
    ∧ SPI_write_txframe 0x001 0 ≠ spec_write_frame 0x001 0 := by
  refine ⟨by decide, by decide, by decide⟩

/-! ## Claim C6 -/

/-- C6: the claim says a register read at addr12 transmits byte 1 =
addr12 AND 0xFF. At address 0x001 the source transmits byte 1 = 0,
because can.c line 39 computes (addr << 8) & 0xFF, which is 0 for
every address; byte 0 and the zero padding match the claim. -/
theorem C6_read_frame_diverges :
    SPI_read_txframe 0x001 = [0x30, 0x00, 0, 0, 0, 0]
    ∧ spec_read_frame 0x001 = [0x30, 0x01, 0, 0, 0, 0]
    ∧ SPI_read_txframe 0x001 ≠ spec_read_frame 0x001 := by
  refine ⟨by decide, by decide, by decide⟩

/-! ## Claim C9 -/

/-- C9: SPI_read_word_from_MCP stores the word assembled from the
receive buffer into the data output on every call, whatever the
exchange status is: the output is a function of the received bytes
alone, so it is never left unchanged on a transport error. -/
theorem C9_read_always_stores (env : SpiEnv) (addr : Nat) (s : DrvState) :
    (SPI_read_word_from_MCP env addr s).2.1 = assembleWord (env.resp s.k) := rfl

/-! ## Claim C5 -/

/-- Read bound for a poll loop with any fuel. -/
theorem pollReg_readCount_le (env : SpiEnv) (a : Nat) (r : Nat → Bool)
    (t w : Nat) (s : DrvState) :
    readCount (pollReg env a r t w s).2.2.trace ≤ readCount s.trace + t := by
  obtain ⟨d, hd, hr, _, _⟩ := pollReg_trace_spec env a r t w s
  simp only [readCount, hd, List.countP_append]
  omega

/-- C5: each polled state of the orchestrator issues at most 10,000
register reads: the mode-change poll of set_mode and the
oscillator-ready poll of oscillator_config run with a budget of 10,000
iterations of one read each, and the busy-wait poll of
CAN_controller_config runs with a budget of u8 10000 = 16 iterations,
also at most 10,000 reads. -/
theorem C5_bounded_polls (env : SpiEnv) (mode w : Nat) (s : DrvState) :
    readCount (pollReg env MCP2518FD_REG_CiCON (fun d => OpMode d == mode) 10000 w s).2.2.trace
        ≤ readCount s.trace + 10000
    ∧ readCount (pollReg env MCP2518FD_REG_OSC (fun d => OscReady d != 0) 10000 w s).2.2.trace
        ≤ readCount s.trace + 10000
    ∧ readCount (pollReg env MCP2518FD_REG_CiCON (fun d => isBusy d == 0) (u8 10000) w s).2.2.trace
        ≤ readCount s.trace + 10000 := by
  refine ⟨pollReg_readCount_le env _ _ 10000 w s, pollReg_readCount_le env _ _ 10000 w s, ?_⟩
  exact le_trans
    (pollReg_readCount_le env MCP2518FD_REG_CiCON (fun d => isBusy d == 0) (u8 10000) w s)
    (Nat.add_le_add_left (by decide) _)

/-! ## Claim C4 -/

/-- C4: the claim says every successful bring-up emits exactly one OSC
write followed by an SclkReady poll. The source emits no register write
at all from oscillator_config: the function returns at line 166 and the
clock-configuration write of line 184 together with the SclkReady poll
of lines 193-207 are unreachable. -/
theorem C4_no_osc_write_emitted (env : SpiEnv) (s : DrvState) :
    writeCount (MCP2518fd_oscillator_config env s).2.trace = writeCount s.trace := by
  obtain ⟨d, hd, _, hw, _⟩ := pollReg_trace_spec env MCP2518FD_REG_OSC
    (fun d => OscReady d != 0) 10000 0 (sleep_ms_ev 2 s)
  simp only [MCP2518fd_oscillator_config]
  split
  · rename_i x s1 heq
    have h2 := congrArg (fun p => (p.2.2 : DrvState).trace) heq
    simp only at h2
    rw [hd] at h2
    simp only [writeCount]
    rw [← h2]
    simp [sleep_ms_ev, List.countP_append, isWrite, hw]
  · rename_i t x s1 heq
    have h2 := congrArg (fun p => (p.2.2 : DrvState).trace) heq
    simp only at h2
    rw [hd] at h2
    split
    · simp only [writeCount]
      rw [← h2]
      simp [sleep_ms_ev, List.countP_append, isWrite, hw]
    · simp only [writeCount]
      rw [← h2]
      simp [sleep_ms_ev, List.countP_append, isWrite, hw]
  · rename_i x s1 heq
    have h2 := congrArg (fun p => (p.2.2 : DrvState).trace) heq
    simp only at h2
    rw [hd] at h2
    simp only [writeCount]
    rw [← h2]
    simp [sleep_ms_ev, List.countP_append, isWrite, hw]

/-! ## Claim C3 -/

/-- C3: the claim says that when OscReady reads 0 on every polled
iteration, oscillator_config returns OSC_UNSTABLE (-2) after
exhausting the 10,000-iteration budget, and returns success only when
some iteration reads OscReady = 1. The source instead returns 0
(success) on exhaustion: while(timeout--) leaves timeout = 65535 after
the final test, so the if(!timeout) of line 161 does not fire and line
166 returns 0. -/
theorem C3_timeout_returns_success (env : SpiEnv) (s : DrvState)
    (hok : ∀ k, u8 (env.resp k).status ≠ 0)
    (hnr : ∀ k, OscReady (assembleWord (env.resp k)) = 0) :
    (MCP2518fd_oscillator_config env s).1 = 0 := by
  have hf : ∀ k, ((OscReady (assembleWord (env.resp k))) != 0) = false := fun k => by
    rw [hnr k]
    decide
  have hex := pollReg_exhausted_of env MCP2518FD_REG_OSC (fun d => OscReady d != 0) hok hf
  simp only [MCP2518fd_oscillator_config]
  split
  · rename_i x s1 heq
    have h2 := congrArg Prod.fst heq
    rw [hex] at h2
    simp at h2
  · rename_i t x s1 heq
    have h2 := congrArg Prod.fst heq
    rw [hex] at h2
    simp at h2
  · rfl

/-- C3 witness: with every exchange reporting status 6 and an all-zero
receive buffer (OscReady = 0 on every read), oscillator_config returns
0 where the claim demands -2. -/
theorem C3_witness : (MCP2518fd_oscillator_config env6z st0).1 = 0 :=
  C3_timeout_returns_success env6z st0
    (fun _ => (by decide : u8 6 ≠ 0))
    (fun _ => (by decide : OscReady (assembleWord ⟨6, [0, 0, 0, 0, 0, 0]⟩) = 0))

/-! ## Claim C8 -/

/-- C8: the claim says set_mode polls OpMode until it matches and fails
with MODE_TIMEOUT on exhaustion. The mode-skip and the poll match the
claim, but on exhaustion the source returns 0 (success): the uint16_t
timeout wraps to 65535 when while(timeout--) exits, so the
if(!timeout) of line 125 does not fire and line 130 returns 0, against
the comment of line 127. -/
theorem C8_exhaustion_returns_success (env : SpiEnv) (mode : Nat) (s : DrvState)
    (hok : ∀ k, u8 (env.resp k).status ≠ 0)
    (hnm : ∀ k, OpMode (assembleWord (env.resp k)) ≠ mode) :
    (MCP2518fd_set_mode env mode s).1 = 0 := by
  have hnr : ∀ k, ((OpMode (assembleWord (env.resp k))) == mode) = false := fun k =>
    beq_eq_false_iff_ne.mpr (hnm k)
  have hex := pollReg_exhausted_of env MCP2518FD_REG_CiCON (fun d => OpMode d == mode) hok hnr
  rw [MCP2518fd_set_mode, SPI_read_error, SPI_read_data, if_neg (hok s.k), if_neg (hnm s.k)]
  show afterPoll (modePollOf env mode s).1 = 0
  have hp : (modePollOf env mode s).1 = LoopExit.exhausted := by
    rw [modePollOf_eq]
    exact hex 10000 _ _
  rw [hp]
  rfl

/-- C8 witness: requesting mode 4 while every exchange reports status 6
with an all-zero receive buffer (OpMode stays 0), set_mode returns 0
where the claim demands MODE_TIMEOUT. -/
theorem C8_witness : (MCP2518fd_set_mode env6z 4 st0).1 = 0 :=
  C8_exhaustion_returns_success env6z 4 st0
    (fun _ => (by decide : u8 6 ≠ 0))
    (fun _ => (by decide : OpMode (assembleWord ⟨6, [0, 0, 0, 0, 0, 0]⟩) ≠ 4))

/-! ## Claim C10 -/

/-- If the mode poll of set_mode always breaks with counter 0 from the
state two exchanges after entry, set_mode returns -2. -/
theorem set_mode_result_brk0 (env : SpiEnv) (mode : Nat) (s : DrvState)
    (hst : u8 (env.resp s.k).status ≠ 0)
    (hne : OpMode (assembleWord (env.resp s.k)) ≠ mode)
    (hbrk : ∀ (w : Nat) (s2 : DrvState), s2.k = s.k + 2 →
      (pollReg env MCP2518FD_REG_CiCON (fun d => OpMode d == mode) 10000 w s2).1
        = LoopExit.brk 0) :
    (MCP2518fd_set_mode env mode s).1 = -2 := by
  rw [MCP2518fd_set_mode, SPI_read_error, SPI_read_data, if_neg hst, if_neg hne]
  show afterPoll (modePollOf env mode s).1 = -2
  have hp : (modePollOf env mode s).1 = LoopExit.brk 0 := by
    rw [modePollOf_eq]
    exact hbrk _ _ (by show s.k + 1 + 1 = s.k + 2; omega)
  rw [hp]
  rfl

/-- If the oscillator poll always breaks with counter 0 from the state
at entry, oscillator_config returns -2. -/
theorem osc_result_brk0 (env : SpiEnv) (s : DrvState)
    (hbrk : ∀ (w : Nat) (s2 : DrvState), s2.k = s.k →
      (pollReg env MCP2518FD_REG_OSC (fun d => OscReady d != 0) 10000 w s2).1
        = LoopExit.brk 0) :
    (MCP2518fd_oscillator_config env s).1 = -2 := by
  simp only [MCP2518fd_oscillator_config]
  split
  · rename_i x s1 heq
    have h2 := congrArg Prod.fst heq
    rw [hbrk] at h2
    · simp at h2
    · simp [sleep_ms_ev]
  · rename_i t x s1 heq
    have h2 := congrArg Prod.fst heq
    rw [hbrk] at h2
    · simp only [Prod.fst] at h2
      have ht : t = 0 := by
        cases h2
        rfl
      rw [ht]
      rfl
    · simp [sleep_ms_ev]
  · rename_i x s1 heq
    have h2 := congrArg Prod.fst heq
    rw [hbrk] at h2
    · simp at h2
    · simp [sleep_ms_ev]

/-- C10: when the polled ready condition first becomes true exactly on
the final iteration of the 10,000-iteration budget, both set_mode and
oscillator_config return -2 (the code documented for the timeout)
instead of success, because the break leaves timeout = 0 and the
if(!timeout) test after the loop fires. During a set_mode run starting
at exchange index s.k the poll reads exchanges s.k + 2 onward (after
the initial read and the mode-request write); an oscillator_config run
polls from index s.k onward. -/
theorem C10_last_iteration_returns_timeout (env1 env2 : SpiEnv) (mode : Nat) (s : DrvState)
    (h1ok : ∀ k, u8 (env1.resp k).status ≠ 0)
    (h1a : OpMode (assembleWord (env1.resp s.k)) ≠ mode)
    (h1b : ∀ j, j < 9999 → OpMode (assembleWord (env1.resp (s.k + 2 + j))) ≠ mode)
    (h1c : OpMode (assembleWord (env1.resp (s.k + 2 + 9999))) = mode)
    (h2ok : ∀ k, u8 (env2.resp k).status ≠ 0)
    (h2b : ∀ j, j < 9999 → OscReady (assembleWord (env2.resp (s.k + j))) = 0)
    (h2c : OscReady (assembleWord (env2.resp (s.k + 9999))) ≠ 0) :
    (MCP2518fd_set_mode env1 mode s).1 = -2
    ∧ (MCP2518fd_oscillator_config env2 s).1 = -2 := by
  constructor
  · apply set_mode_result_brk0 env1 mode s (h1ok s.k) h1a
    intro w s2 hk
    rw [show (10000 : Nat) = 9999 + 1 from rfl]
    apply pollReg_brk_last env1 _ _ h1ok 9999
    · intro j hj
      rw [hk]
      exact beq_eq_false_iff_ne.mpr (h1b j hj)
    · rw [hk]
      exact beq_iff_eq.mpr h1c
  · apply osc_result_brk0 env2 s
    intro w s2 hk
    rw [show (10000 : Nat) = 9999 + 1 from rfl]
    apply pollReg_brk_last env2 _ _ h2ok 9999
    · intro j hj
      rw [hk, h2b j hj]
      decide
    · rw [hk]
      exact bne_iff_ne.mpr h2c

/-- C10 witness: env1w makes OpMode equal the requested mode 4 first on
the final polled iteration (exchange index 10001 of a run from st0);
env2w makes OscReady first read 1 on the final polled iteration
(exchange index 9999). Both functions return -2. -/
theorem C10_witness :
    (MCP2518fd_set_mode env1w 4 st0).1 = -2
    ∧ (MCP2518fd_oscillator_config env2w st0).1 = -2 :=
  C10_last_iteration_returns_timeout env1w env2w 4 st0
    (fun k => by
      show u8 (resp1w k).status ≠ 0
      unfold resp1w
      split <;> decide)
    (by decide)
    (fun j hj => by
      show OpMode (assembleWord (resp1w (st0.k + 2 + j))) ≠ 4
      unfold resp1w
      rw [if_neg (show st0.k + 2 + j ≠ 10001 by show 0 + 2 + j ≠ 10001; omega)]
      decide)
    (by decide)
    (fun k => by
      show u8 (resp2w k).status ≠ 0
      unfold resp2w
      split <;> decide)
    (fun j hj => by
      show OscReady (assembleWord (resp2w (st0.k + j))) = 0
      unfold resp2w
      rw [if_neg (show st0.k + j ≠ 9999 by show 0 + j ≠ 9999; omega)]
      decide)
    (by decide)

/-! ## Claim C2 -/

/-- The poll loop fails out immediately when the first exchange of the
loop reports status 0. -/
theorem pollReg_ioFail_first (env : SpiEnv) (a : Nat) (r : Nat → Bool)
    (t w : Nat) (s : DrvState) (h : u8 (env.resp s.k).status = 0) :
    (pollReg env a r (t + 1) w s).1 = LoopExit.ioFail := by
  rw [pollReg_succ_eq, if_pos h]

/-- oscillator_config returns -1 when its first exchange reports
status 0. -/
theorem osc_result_ioFail (env : SpiEnv) (s : DrvState)
    (h0 : u8 (env.resp s.k).status = 0) :
    (MCP2518fd_oscillator_config env s).1 = -1 := by
  have hio : (pollReg env MCP2518FD_REG_OSC (fun d => OscReady d != 0) 10000 0
      (sleep_ms_ev 2 s)).1 = LoopExit.ioFail := by
    rw [show (10000 : Nat) = 9999 + 1 from rfl]
    exact pollReg_ioFail_first env _ _ 9999 0 (sleep_ms_ev 2 s) h0
  simp only [MCP2518fd_oscillator_config]
  split
  · rfl
  · rename_i t x s1 heq
    have h2 := congrArg Prod.fst heq
    rw [hio] at h2
    simp at h2
  · rename_i x s1 heq
    have h2 := congrArg Prod.fst heq
    rw [hio] at h2
    simp at h2

/-- set_mode never reports -1 when every exchange status is nonzero. -/
theorem set_mode_ne_ioErr (env : SpiEnv) (mode : Nat) (s : DrvState)
    (hA : ∀ k, u8 (env.resp k).status ≠ 0) :
    (MCP2518fd_set_mode env mode s).1 ≠ -1 := by
  rw [MCP2518fd_set_mode, SPI_read_error, SPI_read_data, if_neg (hA s.k)]
  split
  · show (0 : Int) ≠ -1
    decide
  · show afterPoll (modePollOf env mode s).1 ≠ -1
    have hnf : (modePollOf env mode s).1 ≠ LoopExit.ioFail := by
      rw [modePollOf_eq]
      exact pollReg_ne_ioFail env _ _ hA 10000 _ _
    cases hc : (modePollOf env mode s).1 with
    | ioFail => exact absurd hc hnf
    | brk t =>
      show (if t = 0 then (-2 : Int) else 0) ≠ -1
      split
      · decide
      · decide
    | exhausted => decide

/-- oscillator_config never reports -1 when every exchange status is
nonzero. -/
theorem osc_ne_ioErr (env : SpiEnv) (s : DrvState)
    (hA : ∀ k, u8 (env.resp k).status ≠ 0) :
    (MCP2518fd_oscillator_config env s).1 ≠ -1 := by
  have hnf := pollReg_ne_ioFail env MCP2518FD_REG_OSC (fun d => OscReady d != 0) hA
    10000 0 (sleep_ms_ev 2 s)
  simp only [MCP2518fd_oscillator_config]
  split
  · rename_i x s1 heq
    exact absurd (congrArg Prod.fst heq) hnf
  · rename_i t x s1 heq
    split
    · show (-2 : Int) ≠ -1
      decide
    · show (0 : Int) ≠ -1
      decide
  · show (0 : Int) ≠ -1
    decide

/-- devid_verify never reports -2 when every exchange status is
nonzero. -/
theorem devid_ne_ioErr (env : SpiEnv) (s : DrvState)
    (hA : ∀ k, u8 (env.resp k).status ≠ 0) :
    (MCP2518fd_devid_verify env s).1 ≠ -2 := by
  rw [MCP2518fd_devid_verify, SPI_read_error, SPI_read_data, if_neg (hA s.k)]
  split
  · show (-1 : Int) ≠ -2
    decide
  · show (0 : Int) ≠ -2
    decide

/-- C2 counterexample: under the convention of the claim (status 0 =
successful exchange), a run in which every exchange succeeds makes
set_mode report the transport-failure code -1, so the claim as stated
is false: the source treats !error, that is status 0, as the failure. -/
theorem C2_counterexample :
    (envZ.resp st0.k).status = 0
    ∧ (MCP2518fd_set_mode envZ 4 st0).1 = -1
    ∧ ((-1 : Int) ≠ 0) := by decide

/-- C2 amended: the source treats a zero exchange status as the
transport failure and any nonzero status as success. The low-level
read and write return the raw status; when the first checked exchange
reports status 0, set_mode and oscillator_config return -1 and
devid_verify returns -2; when every exchange reports nonzero status,
none of the three returns its transport-failure code. -/
theorem C2_inverted_convention (env envA : SpiEnv) (s : DrvState) (mode : Nat)
    (h0 : u8 (env.resp s.k).status = 0)
    (hA : ∀ k, u8 (envA.resp k).status ≠ 0) :
    (SPI_read_word_from_MCP env MCP2518FD_REG_CiCON s).1 = u8 (env.resp s.k).status
    ∧ (SPI_write_word_to_MCP env MCP2518FD_REG_CiCON 0 s).1 = u8 (env.resp s.k).status
    ∧ (MCP2518fd_set_mode env mode s).1 = -1
    ∧ (MCP2518fd_oscillator_config env s).1 = -1
    ∧ (MCP2518fd_devid_verify env s).1 = -2
    ∧ (MCP2518fd_set_mode envA mode s).1 ≠ -1
    ∧ (MCP2518fd_oscillator_config envA s).1 ≠ -1
    ∧ (MCP2518fd_devid_verify envA s).1 ≠ -2 := by
  refine ⟨rfl, rfl, ?_, osc_result_ioFail env s h0, ?_,
    set_mode_ne_ioErr envA mode s hA, osc_ne_ioErr envA s hA, devid_ne_ioErr envA s hA⟩
  · rw [MCP2518fd_set_mode, SPI_read_error, if_pos h0]
  · rw [MCP2518fd_devid_verify, SPI_read_error, if_pos h0]

/-- C2 witness: envZ reports status 0 on every exchange, env6z reports
status 6 on every exchange. -/
theorem C2_witness :
    (SPI_read_word_from_MCP envZ MCP2518FD_REG_CiCON st0).1 = u8 (envZ.resp st0.k).status
    ∧ (SPI_write_word_to_MCP envZ MCP2518FD_REG_CiCON 0 st0).1 = u8 (envZ.resp st0.k).status
    ∧ (MCP2518fd_set_mode envZ 4 st0).1 = -1
    ∧ (MCP2518fd_oscillator_config envZ st0).1 = -1
    ∧ (MCP2518fd_devid_verify envZ st0).1 = -2
    ∧ (MCP2518fd_set_mode env6z 4 st0).1 ≠ -1
    ∧ (MCP2518fd_oscillator_config env6z st0).1 ≠ -1
    ∧ (MCP2518fd_devid_verify env6z st0).1 ≠ -2 :=
  C2_inverted_convention envZ env6z st0 4 (by decide)
    (fun _ => (by decide : u8 6 ≠ 0))

/-! ## Claim C7 -/

/-- Every event appended by set_mode touches CiCON or is a sleep. -/
theorem set_mode_delta (env : SpiEnv) (mode : Nat) (s : DrvState) :
    ∃ d, (MCP2518fd_set_mode env mode s).2.trace = s.trace ++ d
      ∧ ∀ e ∈ d, evReg e = some MCP2518FD_REG_CiCON ∨ evReg e = none := by
  by_cases h1 : (SPI_read_word_from_MCP env MCP2518FD_REG_CiCON s).1 = 0
  · refine ⟨[Ev.regRead MCP2518FD_REG_CiCON (SPI_read_txframe MCP2518FD_REG_CiCON)
      (assembleWord (env.resp s.k))], ?_, ?_⟩
    · rw [MCP2518fd_set_mode, if_pos h1]
      rfl
    · intro e he
      rw [List.mem_singleton] at he
      subst he
      exact Or.inl rfl
  · by_cases h2 : OpMode (SPI_read_word_from_MCP env MCP2518FD_REG_CiCON s).2.1 = mode
    · refine ⟨[Ev.regRead MCP2518FD_REG_CiCON (SPI_read_txframe MCP2518FD_REG_CiCON)
        (assembleWord (env.resp s.k))], ?_, ?_⟩
      · rw [MCP2518fd_set_mode, if_neg h1, if_pos h2]
        rfl
      · intro e he
        rw [List.mem_singleton] at he
        subst he
        exact Or.inl rfl
    · obtain ⟨d, hd, _, _, hm⟩ := pollReg_trace_spec env MCP2518FD_REG_CiCON
        (fun d => OpMode d == mode) 10000
        (setRequestOpMode (assembleWord (env.resp s.k)) mode)
        (afterWrite env MCP2518FD_REG_CiCON
          (setRequestOpMode (assembleWord (env.resp s.k)) mode)
          (afterRead env MCP2518FD_REG_CiCON s))
      refine ⟨Ev.regRead MCP2518FD_REG_CiCON (SPI_read_txframe MCP2518FD_REG_CiCON)
          (assembleWord (env.resp s.k))
        :: Ev.regWrite MCP2518FD_REG_CiCON (SPI_write_txframe MCP2518FD_REG_CiCON
          (setRequestOpMode (assembleWord (env.resp s.k)) mode))
        :: d, ?_, ?_⟩
      · rw [MCP2518fd_set_mode, if_neg h1, if_neg h2]
        show (modePollOf env mode s).2.2.trace
          = s.trace ++ (Ev.regRead MCP2518FD_REG_CiCON (SPI_read_txframe MCP2518FD_REG_CiCON)
              (assembleWord (env.resp s.k))
            :: Ev.regWrite MCP2518FD_REG_CiCON (SPI_write_txframe MCP2518FD_REG_CiCON
              (setRequestOpMode (assembleWord (env.resp s.k)) mode))
            :: d)
        rw [modePollOf_eq, hd]
        simp [afterWrite, afterRead]
      · intro e he
        rw [List.mem_cons] at he
        rcases he with he | he
        · subst he
          exact Or.inl rfl
        rw [List.mem_cons] at he
        rcases he with he | he
        · subst he
          exact Or.inl rfl
        · exact hm e he

/-- An event that touches a register and is not a write is a read. -/
theorem ev_read_of (e : Ev) (a : Nat) (hw : ¬ isWrite e = true)
    (h : evReg e = some a) : isRead e = true := by
  cases e <;> simp_all [isWrite, isRead, evReg]

/-- Every event appended by oscillator_config is an OSC register READ
or a sleep: in particular oscillator_config emits no register write,
so the clock-configuration write and the system-clock-ready wait of
the spec do not occur. -/
theorem osc_delta (env : SpiEnv) (s : DrvState) :
    ∃ d, (MCP2518fd_oscillator_config env s).2.trace = s.trace ++ d
      ∧ ∀ e ∈ d, (isRead e = true ∧ evReg e = some MCP2518FD_REG_OSC)
        ∨ evReg e = none := by
  obtain ⟨d, hd, _, hw, hm⟩ := pollReg_trace_spec env MCP2518FD_REG_OSC
    (fun d => OscReady d != 0) 10000 0 (sleep_ms_ev 2 s)
  have hnw : ∀ e ∈ d, ¬ isWrite e = true := List.countP_eq_zero.mp hw
  have hmem : ∀ e ∈ Ev.sleepMs 2 :: d,
      (isRead e = true ∧ evReg e = some MCP2518FD_REG_OSC) ∨ evReg e = none := by
    intro e he
    rw [List.mem_cons] at he
    rcases he with he | he
    · subst he
      exact Or.inr rfl
    · rcases hm e he with hsome | hnone
      · exact Or.inl ⟨ev_read_of e MCP2518FD_REG_OSC (hnw e he) hsome, hsome⟩
      · exact Or.inr hnone
  refine ⟨Ev.sleepMs 2 :: d, ?_, hmem⟩
  simp only [MCP2518fd_oscillator_config]
  split
  · rename_i x s1 heq
    have h2 := congrArg (fun p => (p.2.2 : DrvState).trace) heq
    simp only at h2
    rw [hd] at h2
    show s1.trace = s.trace ++ (Ev.sleepMs 2 :: d)
    rw [← h2]
    simp [sleep_ms_ev]
  · rename_i t x s1 heq
    have h2 := congrArg (fun p => (p.2.2 : DrvState).trace) heq
    simp only at h2
    rw [hd] at h2
    split
    · show s1.trace = s.trace ++ (Ev.sleepMs 2 :: d)
      rw [← h2]
      simp [sleep_ms_ev]
    · show s1.trace = s.trace ++ (Ev.sleepMs 2 :: d)
      rw [← h2]
      simp [sleep_ms_ev]
  · rename_i x s1 heq
    have h2 := congrArg (fun p => (p.2.2 : DrvState).trace) heq
    simp only at h2
    rw [hd] at h2
    show s1.trace = s.trace ++ (Ev.sleepMs 2 :: d)
    rw [← h2]
    simp [sleep_ms_ev]

/-- devid_verify appends exactly one DEVID read and no other event. -/
theorem devid_delta (env : SpiEnv) (s : DrvState) :
    ∃ d, (MCP2518fd_devid_verify env s).2.trace = s.trace ++ d
      ∧ ∀ e ∈ d, (isRead e = true ∧ evReg e = some MCP2518FD_REG_DEVID)
        ∨ evReg e = none := by
  refine ⟨[Ev.regRead MCP2518FD_REG_DEVID (SPI_read_txframe MCP2518FD_REG_DEVID)
    (assembleWord (env.resp s.k))], ?_, ?_⟩
  · rw [MCP2518fd_devid_verify]
    split
    · rfl
    · split
      · rfl
      · rfl
  · intro e he
    rw [List.mem_singleton] at he
    subst he
    exact Or.inl ⟨rfl, rfl⟩

/-- C7 counterexample: in the run of init under env7 (a short
successful bring-up), the configuration-mode request is written to
CiCON strictly before the first OSC read, so the claim that no
configuration-mode request is written before the oscillator-ready poll
has succeeded is false on the source: init calls set_mode before
oscillator_config. -/
theorem C7_counterexample :
    ((MCP2518fd_init env7 st0).2.trace.takeWhile
        (fun e => !(isRead e && (evReg e == some MCP2518FD_REG_OSC)))).countP
      (fun e => isWrite e && (evReg e == some MCP2518FD_REG_CiCON)) = 1 := by decide

/-- C7 amended: in every execution of init the phases occur in the
order reset, configuration-mode entry (CiCON accesses and sleeps
only), oscillator-ready wait (OSC register READS and sleeps only),
identity verification (DEVID reads only). The OSC phase and the DEVID
phase contain no register write at all, so no OSC write is ever
emitted and the clock-configuration step of the spec (an OSC write
followed by an SclkReady poll) does not occur; and the
configuration-mode request may be written to CiCON before the
oscillator-ready poll has begun. -/
theorem C7_phase_order (env : SpiEnv) :
    ∃ t1 t2 t3,
      (MCP2518fd_init env st0).2.trace
        = Ev.reset :: Ev.sleepMs 2 :: (t1 ++ t2 ++ t3)
      ∧ (∀ e ∈ t1, evReg e = some MCP2518FD_REG_CiCON ∨ evReg e = none)
      ∧ (∀ e ∈ t2, (isRead e = true ∧ evReg e = some MCP2518FD_REG_OSC)
          ∨ evReg e = none)
      ∧ (∀ e ∈ t3, (isRead e = true ∧ evReg e = some MCP2518FD_REG_DEVID)
          ∨ evReg e = none) := by
  obtain ⟨d1, hd1, hm1⟩ := set_mode_delta env CAN_CONFIGURATION_MODE (init_afterReset env st0)
  obtain ⟨d2, hd2, hm2⟩ := osc_delta env (init_mode env st0).2
  obtain ⟨d3, hd3, hm3⟩ := devid_delta env (init_osc env st0).2
  have hbase : (init_afterReset env st0).trace = [Ev.reset, Ev.sleepMs 2] := rfl
  rw [MCP2518fd_init]
  by_cases c1 : (init_mode env st0).1 ≠ 0
  · rw [if_pos c1]
    refine ⟨d1, [], [], ?_, hm1, by simp, by simp⟩
    show (init_mode env st0).2.trace = Ev.reset :: Ev.sleepMs 2 :: (d1 ++ [] ++ [])
    rw [init_mode, hd1, hbase]
    simp
  · rw [if_neg c1]
    by_cases c2 : (init_osc env st0).1 = 0
    · rw [if_pos c2]
      refine ⟨d1, d2, [], ?_, hm1, hm2, by simp⟩
      show (init_osc env st0).2.trace = Ev.reset :: Ev.sleepMs 2 :: (d1 ++ d2 ++ [])
      rw [init_osc, hd2, init_mode, hd1, hbase]
      simp
    · rw [if_neg c2]
      by_cases c3 : (init_devid env st0).1 = 0
      · rw [if_pos c3]
        refine ⟨d1, d2, d3, ?_, hm1, hm2, hm3⟩
        show (init_devid env st0).2.trace = Ev.reset :: Ev.sleepMs 2 :: (d1 ++ d2 ++ d3)
        rw [init_devid, hd3, init_osc, hd2, init_mode, hd1, hbase]
        simp
      · rw [if_neg c3]
        refine ⟨d1, d2, d3, ?_, hm1, hm2, hm3⟩
        show (init_devid env st0).2.trace = Ev.reset :: Ev.sleepMs 2 :: (d1 ++ d2 ++ d3)
        rw [init_devid, hd3, init_osc, hd2, init_mode, hd1, hbase]
        simp

end CanDriver
